import Mathlib

/-!
Shallow embedding of the fulfillment-saga core of the housika marketplace
backend, with theorems checking the natural-language specification against
the code.

Embedded source files:
- src/functions/bookings/post.js          (handler `bookings`)
- src/routes/chats/create.js              (handler `createChat`)
- src/routes/banners/update.js            (handler `postMessageToChat`)
- src/routes/countries/id.js              (receipts handler, `parseAndNormalizeAmount`, `retryUpload`)
- src/routes/receipts/post.js             (`initR2`: `generatePublicUrl`, `generateFilename`)

External calls (document store, payment gateway, object storage, PDF
renderer, mail) are modelled by oracle fields of each handler's environment
structure: the oracle says what the external call would return or whether it
would throw, and the handler definition is a line-by-line translation of the
JavaScript control flow over those oracles.  Each handler returns both its
HTTP response and an effects record listing the durable writes that the run
performed.
-/

/-- Model of a JavaScript value as far as the truthiness / typeof tests in
the embedded code need: `undef` is `undefined`, `jnull` is `null`, `jobj`
stands for any non-null object. -/
inductive JVal where
  | undef : JVal
  | jnull : JVal
  | jbool : Bool → JVal
  | jnum : Int → JVal
  | jstr : String → JVal
  | jobj : JVal
deriving DecidableEq, Repr

/-- JavaScript truthiness: `undefined`, `null`, `false`, `0`, `""` are falsy. -/
def JVal.truthy : JVal → Bool
  | .undef => false
  | .jnull => false
  | .jbool b => b
  | .jnum n => !(n == 0)
  | .jstr s => !(s == "")
  | .jobj => true

/-- JavaScript `typeof v === 'string'`. -/
def JVal.isString : JVal → Bool
  | .jstr _ => true
  | _ => false

/-- JavaScript `typeof v === 'object'` (true for `null` as well as objects). -/
def JVal.isObjectLike : JVal → Bool
  | .jobj => true
  | .jnull => true
  | _ => false

/-- JavaScript whitespace as far as the embedded strings need (`\s` also
matches some unicode spaces; those do not occur in the modelled data). -/
def jsWhitespace (c : Char) : Bool := c.isWhitespace

/-- JavaScript `String.prototype.trim`, written over the character list so
that every proof can evaluate it. -/
def jsTrim (s : String) : String :=
  String.mk (((s.toList.dropWhile jsWhitespace).reverse.dropWhile jsWhitespace).reverse)

/-- JavaScript `String.prototype.toUpperCase` on the ASCII data the code
handles, written over the character list. -/
def jsToUpper (s : String) : String :=
  String.mk (s.toList.map Char.toUpper)

/-- From src/routes/receipts/post.js line 187:
`generatePublicUrl = (key) => endpoint/bucket/key`. -/
def generatePublicUrl (endpoint bucket key : String) : String :=
  endpoint ++ "/" ++ bucket ++ "/" ++ key

/-- From src/routes/receipts/post.js lines 184-185:
`generateFilename = (ext, p) => p/randomUUID.ext` (the UUID is an oracle). -/
def generateFilename (ext p uuid : String) : String :=
  p ++ "/" ++ uuid ++ "." ++ ext

/-! ## Chat creation (src/routes/chats/create.js) -/

/-- A raw `initialMessage` (or message body) object with the three fields the
sanitizers inspect. -/
structure RawMessage where
  body : JVal
  type : JVal
  metadata : JVal
deriving DecidableEq, Repr

/-- Result of sanitizing a message: only the fields that survived. -/
structure CleanMessage where
  body : Option String
  type : Option String
  metadata : Option JVal
deriving DecidableEq, Repr

/-- src/routes/chats/create.js lines 33-40 (`sanitizeInitialMessage`):
keeps `body` (trimmed) when it is a truthy string, `type` when a truthy
string, `metadata` when a truthy object; returns null when nothing survives.
The input is `none` when the raw value is falsy or not an object. -/
def sanitizeInitialMessage (msg : Option RawMessage) : Option CleanMessage :=
  match msg with
  | none => none
  | some m =>
    let b : Option String :=
      match m.body with
      | .jstr s => if s == "" then none else some (jsTrim s)
      | _ => none
    let t : Option String :=
      match m.type with
      | .jstr s => if s == "" then none else some s
      | _ => none
    let md : Option JVal :=
      if m.metadata.truthy && m.metadata.isObjectLike then some m.metadata else none
    if b.isNone && t.isNone && md.isNone then none else some ⟨b, t, md⟩

/-- One entry of the `participants` array: `present = false` models a falsy
entry (for which `p?.userId` is `undefined`). -/
structure ChatParticipant where
  present : Bool
  userId : JVal
deriving DecidableEq, Repr

/-- The chat-creation payload fields inspected by `validateChatPayload`. -/
structure ChatPayload where
  isObject : Bool
  tooLarge : Bool
  tenantId : JVal
  participantsIsArray : Bool
  participants : List ChatParticipant
  type : JVal
  initialMessage : Option RawMessage
deriving DecidableEq, Repr

/-- src/routes/chats/create.js lines 21-31 (`validateChatPayload`). -/
def validateChatPayload (p : ChatPayload) : Option String :=
  if !p.isObject then some "PAYLOAD_INVALID"
  else if p.tooLarge then some "PAYLOAD_TOO_LARGE"
  else if !(p.tenantId.truthy && p.tenantId.isString) then some "MISSING_TENANT"
  else if !p.participantsIsArray || p.participants.length < 1 then some "MISSING_PARTICIPANTS"
  else if !(p.participants.all fun q => q.present && q.userId.isString) then
    some "INVALID_PARTICIPANTS"
  else if p.type.truthy && !p.type.isString then some "INVALID_TYPE"
  else none

/-- Outcome of an `insertOne` call: it threw, or it succeeded returning an
optional `insertedId`. -/
inductive InsertOutcome where
  | threw : InsertOutcome
  | ok : Option String → InsertOutcome
deriving DecidableEq, Repr

/-- src/routes/chats/create.js line 4. -/
def DEFAULT_ATOMIC_CREATE : Bool := true

/-- Environment (request plus oracles for the external calls) of one
`createChat` run. -/
structure CreateChatEnv where
  bodyValid : Bool
  payload : ChatPayload
  dbOk : Bool
  chatInsert : InsertOutcome
  msgInsert : InsertOutcome
  deleteOk : Bool
deriving Repr

/-- Response and durable effects of one `createChat` run.  `chatPersisted`
states that a chat document exists after the run; `messagePersisted`
likewise for the initial message. -/
structure CreateChatResult where
  success : Bool
  error : Option String
  httpStatus : Nat
  insertedId : Option String
  messageInsertedId : Option String
  chatPersisted : Bool
  messagePersisted : Bool
deriving DecidableEq, Repr

/-- src/routes/chats/create.js lines 46-224 (`createChat`), line by line:
body parse, payload validation, collection retrieval, chat insert, optional
initial-message insert with compensating delete of the chat on failure. -/
def createChat (e : CreateChatEnv) : CreateChatResult :=
  if !e.bodyValid then ⟨false, some "BODY_PARSE_FAILED", 400, none, none, false, false⟩
  else
    match validateChatPayload e.payload with
    | some code => ⟨false, some code, 400, none, none, false, false⟩
    | none =>
      if !e.dbOk then ⟨false, some "DB_CONNECTION_FAILED", 503, none, none, false, false⟩
      else
        match e.chatInsert with
        | .threw => ⟨false, some "CHAT_INSERT_FAILED", 500, none, none, false, false⟩
        | .ok none =>
          -- insert succeeded but returned no insertedId: the handler throws
          -- and reports CHAT_INSERT_FAILED, yet a chat document was written
          ⟨false, some "CHAT_INSERT_FAILED", 500, none, none, true, false⟩
        | .ok (some chatId) =>
          match sanitizeInitialMessage e.payload.initialMessage with
          | none => ⟨true, none, 201, some chatId, none, true, false⟩
          | some _ =>
            match e.msgInsert with
            | .ok mid => ⟨true, none, 201, some chatId, mid, true, true⟩
            | .threw =>
              if DEFAULT_ATOMIC_CREATE then
                if e.deleteOk then
                  ⟨false, some "MESSAGE_INSERT_FAILED", 500, none, none, false, false⟩
                else
                  ⟨false, some "PARTIAL_FAILURE", 500, none, none, true, false⟩
              else ⟨true, none, 201, some chatId, none, true, false⟩

/-! ## Posting a message to a chat (src/routes/banners/update.js, second half) -/

/-- src/routes/banners/update.js lines 158-165 (`sanitizeMessage`): textually
the same filter as `sanitizeInitialMessage`, defined in its own file. -/
def sanitizeMessage (raw : Option RawMessage) : Option CleanMessage :=
  match raw with
  | none => none
  | some m =>
    let b : Option String :=
      match m.body with
      | .jstr s => if s == "" then none else some (jsTrim s)
      | _ => none
    let t : Option String :=
      match m.type with
      | .jstr s => if s == "" then none else some s
      | _ => none
    let md : Option JVal :=
      if m.metadata.truthy && m.metadata.isObjectLike then some m.metadata else none
    if b.isNone && t.isNone && md.isNone then none else some ⟨b, t, md⟩

/-- The `!message || !message.body` guard of `postMessageToChat`:
the sanitized message must exist and carry a truthy (non-empty) body. -/
def messageBodyTruthy : Option CleanMessage → Bool
  | some m =>
    match m.body with
    | some s => !(s == "")
    | none => false
  | none => false

/-- The chat document fields inspected by `postMessageToChat`. -/
structure ChatDoc where
  tenantId : Option String
  participants : List ChatParticipant
deriving DecidableEq, Repr

/-- Check `chatDoc.participants.some(p => p?.userId === userId)`. -/
def isParticipant (doc : ChatDoc) (userId : String) : Bool :=
  doc.participants.any fun p =>
    (if p.present then p.userId else JVal.undef) == JVal.jstr userId

/-- Check `tenantId && chatDoc.tenantId && tenantId !== chatDoc.tenantId`. -/
def tenantMismatch (tenantId chatTenant : Option String) : Bool :=
  match tenantId, chatTenant with
  | some a, some b => !(a == b)
  | _, _ => false

/-- Outcome of the chat lookup `find`: it threw, or returned an optional doc. -/
inductive LookupOutcome where
  | threw : LookupOutcome
  | found : Option ChatDoc → LookupOutcome
deriving DecidableEq, Repr

/-- src/routes/banners/update.js line 144. -/
def DEFAULT_ATOMIC_MESSAGE_CREATE : Bool := true

/-- Environment of one `postMessageToChat` run. -/
structure PostMsgEnv where
  userId : Option String
  tenantId : Option String
  chatIdParam : Option String
  bodyValid : Bool
  rawMessage : Option RawMessage
  sizeOk : Bool
  dbOk : Bool
  chatLookup : LookupOutcome
  msgInsert : InsertOutcome
  chatUpdateOk : Bool
  deleteOk : Bool
deriving Repr

/-- Response and durable effects of one `postMessageToChat` run. -/
structure PostMsgResult where
  success : Bool
  error : Option String
  httpStatus : Nat
  messageId : Option String
  messagePersisted : Bool
  chatMetadataUpdated : Bool
deriving DecidableEq, Repr

/-- src/routes/banners/update.js lines 178-428 (`postMessageToChat`):
auth, chat-id, body parse, sanitize, size, collections, chat lookup, tenant
and participant enforcement, message insert, chat-metadata update with
compensating delete of the message on failure. -/
def postMessageToChat (e : PostMsgEnv) : PostMsgResult :=
  match e.userId with
  | none => ⟨false, some "UNAUTHENTICATED", 401, none, false, false⟩
  | some userId =>
    if e.chatIdParam.isNone then ⟨false, some "INVALID_CHAT_ID", 400, none, false, false⟩
    else if !e.bodyValid then ⟨false, some "BODY_PARSE_FAILED", 400, none, false, false⟩
    else
      let message := sanitizeMessage e.rawMessage
      if !messageBodyTruthy message then
        ⟨false, some "INVALID_MESSAGE", 400, none, false, false⟩
      else if !e.sizeOk then ⟨false, some "MESSAGE_TOO_LARGE", 413, none, false, false⟩
      else if !e.dbOk then ⟨false, some "DB_CONNECTION_FAILED", 503, none, false, false⟩
      else
        match e.chatLookup with
        | .threw => ⟨false, some "DB_QUERY_FAILED", 500, none, false, false⟩
        | .found none => ⟨false, some "CHAT_NOT_FOUND", 404, none, false, false⟩
        | .found (some chatDoc) =>
          if tenantMismatch e.tenantId chatDoc.tenantId then
            ⟨false, some "FORBIDDEN", 403, none, false, false⟩
          else if !isParticipant chatDoc userId then
            ⟨false, some "FORBIDDEN", 403, none, false, false⟩
          else
            match e.msgInsert with
            | .threw => ⟨false, some "MESSAGE_INSERT_FAILED", 500, none, false, false⟩
            | .ok none =>
              -- insert succeeded without an id: the handler throws inside the
              -- same try, so the message document persists but the run fails
              ⟨false, some "MESSAGE_INSERT_FAILED", 500, none, true, false⟩
            | .ok (some mid) =>
              if e.chatUpdateOk then ⟨true, none, 201, some mid, true, true⟩
              else if DEFAULT_ATOMIC_MESSAGE_CREATE then
                if e.deleteOk then
                  ⟨false, some "CHAT_UPDATE_FAILED", 500, none, false, false⟩
                else
                  ⟨false, some "PARTIAL_FAILURE", 500, none, true, false⟩
              else ⟨true, none, 201, some mid, true, false⟩

/-! ## Booking handler (src/functions/bookings/post.js) -/

/-- Fields of the room document used by the booking handler. -/
structure RoomDoc where
  id : String
  title : String
  price : Int
deriving DecidableEq, Repr

/-- Fields of the property document used by the booking handler.
`unit_available` is `none` when the field is absent from the document. -/
structure PropertyDoc where
  id : String
  property_id : String
  title : String
  landlord_id : String
  unit_available : Option Int
deriving DecidableEq, Repr

/-- Fields of the landlord (user) document used by the booking handler. -/
structure LandlordDoc where
  email : String
  full_name : Option String
deriving DecidableEq, Repr

/-- Outcome of the best-effort local payments lookup (lines 81-95): the
`find` threw, or it returned rows whose first row has the given `status`
(`status none` covers both no row and a row without a status field). -/
inductive LocalPaymentLookup where
  | threw : LocalPaymentLookup
  | status : Option String → LocalPaymentLookup
deriving DecidableEq, Repr

/-- Outcome of `verifyPayment(reference)` (lines 98-121): it resolved with
`verified.data` carrying the given status (`result none` = missing data),
or threw an error whose message contains 'Transaction reference not found',
or threw some other error. -/
inductive VerifyOutcome where
  | result : Option String → VerifyOutcome
  | throwRefNotFound : VerifyOutcome
  | throwOther : VerifyOutcome
deriving DecidableEq, Repr

/-- Check `existingRow?.status === 'used'` (line 83). -/
def localSaysUsed : LocalPaymentLookup → Bool
  | .status (some s) => s == "used"
  | _ => false

/-- JavaScript `property.unit_available || 1` (line 227): the default also
fires when the stored value is `0`, because `0` is falsy. -/
def unitAvailableOrOne : Option Int → Int
  | none => 1
  | some n => if n == 0 then 1 else n

/-- Compute `Math.max(0, (property.unit_available || 1) - 1)` (line 227). -/
def nextUnitsOf (u : Option Int) : Int :=
  max 0 (unitAvailableOrOne u - 1)

/-- Environment of one `bookings` run: request fields plus oracles for every
external call the handler makes. -/
structure BookingEnv where
  bodyValid : Bool
  roomId : Option String
  paymentReference : Option String
  bodyEmail : String
  tokenEmail : String
  isUser : Bool
  isCEO : Bool
  guestFieldsComplete : Bool
  collectionsOk : Bool
  localLookup : LocalPaymentLookup
  verify : VerifyOutcome
  room : Option RoomDoc
  property : Option PropertyDoc
  landlord : Option LandlordDoc
  receiptUuid : String
  r2Endpoint : String
  r2Bucket : String
  roomPatchOk : Bool
  propertyPatchOk : Bool
  bookingPostOk : Bool
  paymentPostOk : Bool
deriving DecidableEq, Repr

/-- Compute `String(userPayload?.email || (bodyEmail || '')).trim()` (line 49). -/
def resolvedEmail (e : BookingEnv) : String :=
  jsTrim (if e.tokenEmail == "" then e.bodyEmail else e.tokenEmail)

/-- Tenant email used for the confirmation mail (lines 188 and 203):
`bodyEmail || userPayload.email || resolvedEmail` for a logged-in user,
`resolvedEmail` for a guest. -/
def tenantEmailOf (e : BookingEnv) : String :=
  if e.isUser then
    if e.bodyEmail == "" then
      if e.tokenEmail == "" then resolvedEmail e else e.tokenEmail
    else e.bodyEmail
  else resolvedEmail e

/-- The property patch written at line 230. -/
structure PropPatch where
  unit_available : Int
  active : Bool
deriving DecidableEq, Repr

/-- Durable writes (and the detached email dispatch) performed by one
`bookings` run.  `...Attempted` flags say the write was issued;
the corresponding plain flag says it landed. -/
structure BookingEffects where
  bookingAttempted : Bool
  bookingPersisted : Bool
  paymentMarkAttempted : Bool
  paymentMarkedUsed : Bool
  roomPatched : Bool
  propertyPatch : Option PropPatch
  uploadedReceiptKey : Option String
  emails : Option (String × String)
deriving DecidableEq, Repr

/-- The effects of a run that performed no write at all. -/
def noBookingEffects : BookingEffects :=
  ⟨false, false, false, false, false, none, none, none⟩

/-- HTTP response of the booking handler: success carries the booking's
`receipt_url` and `receipt_sent` flag. -/
inductive BookingResp where
  | ok : String → Bool → BookingResp
  | err : String → Nat → BookingResp
deriving DecidableEq, Repr

/-- Whether a booking response is a failure (`success: false`). -/
def BookingResp.isErr : BookingResp → Bool
  | .err _ _ => true
  | .ok _ _ => false

/-- Result of one `bookings` run. -/
structure BookingResult where
  resp : BookingResp
  eff : BookingEffects
deriving DecidableEq, Repr

/-- Data the pre-persistence part of the handler would hand to the joint
write stage (lines 219-244).  That stage is dead code — see
`bookingsPrelim` — so no run ever constructs this record; it is kept as
the translation of what the dead code would pass along. -/
structure BookingGo where
  markPayment : Bool
  nextUnits : Int
  receiptKey : String
  receiptUrl : String
  tenantEmail : String
  landlordEmail : String
deriving DecidableEq, Repr

/-- src/functions/bookings/post.js lines 17-217: everything before the joint
persistence write.  Unexpected throws (collection retrieval, gateway errors
other than an unknown reference) land in the outer catch, which answers
BOOKING_CREATION_FAILED/500 (lines 285-294).

The pipeline never returns `.ok`: the receipt-generation declaration at
lines 214-217,
  `const [qrDataUrl, pdfBuffer] = await Promise.all([...])`,
reads `qrDataUrl` in the template literal passed to `htmlToPdfBuffer` —
inside the initializer of the very `const` that binds it.  That is a
temporal-dead-zone ReferenceError, thrown while the array literal is
evaluated, so every run that reaches receipt generation throws into the
outer catch and answers BOOKING_CREATION_FAILED/500.  The upload, the
`Promise.all` write stage, the email dispatch and the success response
(lines 219-284) are dead code. -/
def bookingsPrelim (e : BookingEnv) : Except (String × Nat) BookingGo :=
  if !e.bodyValid then .error ("INVALID_BODY", 400)
  else if e.roomId.isNone || e.paymentReference.isNone then .error ("MISSING_FIELDS", 400)
  else if resolvedEmail e == "" then .error ("MISSING_EMAIL", 400)
  else if !e.collectionsOk then .error ("BOOKING_CREATION_FAILED", 500)
  else
    let payChk : Except (String × Nat) Bool :=
      if e.isCEO then .ok false
      else if localSaysUsed e.localLookup then .error ("PAYMENT_USED", 409)
      else
        match e.verify with
        | .throwRefNotFound => .error ("PAYMENT_REFERENCE_NOT_FOUND", 402)
        | .throwOther => .error ("BOOKING_CREATION_FAILED", 500)
        | .result st =>
          if st == some "success" then .ok true else .error ("PAYMENT_FAILED", 402)
    match payChk with
    | .error er => .error er
    | .ok _markPayment =>
      match e.room, e.property with
      | some _room, some _prop =>
        match e.landlord with
        | none => .error ("LANDLORD_NOT_FOUND", 404)
        | some _landlord =>
          if !e.isUser && !e.guestFieldsComplete then .error ("MISSING_GUEST_FIELDS", 400)
          else
            -- lines 214-217: the qrDataUrl temporal-dead-zone ReferenceError
            -- (see the doc comment above); unconditionally thrown here
            .error ("BOOKING_CREATION_FAILED", 500)
      | _, _ => .error ("ROOM_OR_PROPERTY_NOT_FOUND", 404)

/-- src/functions/bookings/post.js lines 12-295 (`bookings`): the
pre-persistence pipeline, then the joint `Promise.all` write stage of lines
226-244 (room patch, property patch, booking insert, and — when a
provider-verified payment exists — the mark-used payment insert, all issued
concurrently; each lands independently of the others), then the detached
email dispatch of lines 247-281 and the success response of line 284.
Because `bookingsPrelim` always throws at the receipt-generation
declaration, the `.ok` arm below — like source lines 219-284 — is dead
code, retained as its translation: no run of `bookings` ever produces a
success response or any effect. -/
def bookings (e : BookingEnv) : BookingResult :=
  match bookingsPrelim e with
  | .error (code, status) => ⟨.err code status, noBookingEffects⟩
  | .ok go =>
    let allOk :=
      e.roomPatchOk && e.propertyPatchOk && e.bookingPostOk &&
        (!go.markPayment || e.paymentPostOk)
    let eff : BookingEffects :=
      { bookingAttempted := true,
        bookingPersisted := e.bookingPostOk,
        paymentMarkAttempted := go.markPayment,
        paymentMarkedUsed := go.markPayment && e.paymentPostOk,
        roomPatched := e.roomPatchOk,
        propertyPatch :=
          if e.propertyPatchOk then some ⟨go.nextUnits, decide (0 < go.nextUnits)⟩ else none,
        uploadedReceiptKey := some go.receiptKey,
        emails := if allOk then some (go.tenantEmail, go.landlordEmail) else none }
    if allOk then ⟨.ok go.receiptUrl true, eff⟩
    else ⟨.err "BOOKING_CREATION_FAILED" 500, eff⟩

/-! ## Amount normalization (src/routes/countries/id.js lines 512-563) -/

/-- src/routes/countries/id.js line 501. -/
def SUPPORTED_CURRENCIES : List String := ["KES", "USD", "EUR", "GBP"]

/-- src/routes/countries/id.js line 502. -/
def UPLOAD_RETRY_ATTEMPTS : Nat := 3

/-- The fields of the request body read by `parseAndNormalizeAmount`.
`amount_currency` is `none` when absent or falsy (the code rejects a
non-string currency the same way).  `raw_amount_input` is `none` when
absent or falsy, matching the `raw_amount_input ? String(...) : null`
coercion at line 529. -/
structure AmountBody where
  amount_value : Option Int
  amount_currency : Option String
  amount : Option String
  raw_amount_input : Option String
deriving DecidableEq, Repr

/-- Normalized amount (line 513 return shape). -/
structure NormalizedAmount where
  amount_value : Int
  amount_currency : String
  amount_display : String
deriving DecidableEq, Repr

/-- Value of a digit string under JavaScript `Number` (exact for the integer
range the receipts handle; double rounding beyond 2^53 is out of model). -/
def digitsToNat (l : List Char) : Nat :=
  l.foldl (fun acc c => acc * 10 + (c.toNat - '0'.toNat)) 0

/-- The match of `/^([A-Za-z]{3})\s*(.+)$/` at line 537, specialised to the
already-trimmed string the code applies it to (a trimmed string never ends
in whitespace, so the greedy `\s*` never needs to backtrack): three ASCII
letters followed by at least one more character split into the upper-cased
currency token and the rest with leading whitespace dropped. -/
def tokenSplit (s : String) : Option (String × List Char) :=
  match s.toList with
  | a :: b :: c :: rest =>
    if a.isAlpha && b.isAlpha && c.isAlpha && !rest.isEmpty then
      some (String.mk [a.toUpper, b.toUpper, c.toUpper],
            rest.dropWhile jsWhitespace)
    else none
  | _ => none

/-- The two replaces at line 551: dropping `[, ]+` and then every character
that is not a digit or a dot amounts to keeping digits and dots. -/
def cleanNumeric (l : List Char) : List Char :=
  l.filter fun c => c.isDigit || c == '.'

/-- JavaScript `String.prototype.split('.')` over the character list. -/
def splitDots : List Char → List (List Char)
  | [] => [[]]
  | c :: rest =>
    if c == '.' then [] :: splitDots rest
    else
      match splitDots rest with
      | h :: t => (c :: h) :: t
      | [] => [[c]]

/-- The test `/^\d+(\.\d+)?$/` at line 552. -/
def validNumeric (l : List Char) : Bool :=
  match splitDots l with
  | [a] => !a.isEmpty && a.all Char.isDigit
  | [a, b] => !a.isEmpty && !b.isEmpty && a.all Char.isDigit && b.all Char.isDigit
  | _ => false

/-- Compute `(parts[1] || '').padEnd(2, '0')` at line 557. -/
def padEndTwoZero (l : List Char) : List Char :=
  if 2 ≤ l.length then l else l ++ List.replicate (2 - l.length) '0'

/-- Digit grouping of `Intl.NumberFormat('en-US')`: a comma every three
digits from the right.  The counter is the number of digits still allowed
before the next comma; the list is the digit string reversed. -/
def groupDigitsAux : Nat → List Char → List Char
  | _, [] => []
  | 0, c :: rest => ',' :: c :: groupDigitsAux 2 rest
  | n + 1, c :: rest => c :: groupDigitsAux n rest

/-- Digit grouping of a decimal digit string ("2500" to "2,500"). -/
def groupDigits (s : String) : String :=
  String.mk (groupDigitsAux 3 s.toList.reverse).reverse

/-- How `Intl.NumberFormat('en-US', style currency)` introduces the four
supported currencies: a symbol for USD/EUR/GBP, the code followed by a
space for KES (ICU may emit U+00A0 there; both are `\s`, which is all the
round-trip parse relies on, so the model uses a plain space). -/
def currencyMark : String → String
  | "USD" => "$"
  | "EUR" => "€"
  | "GBP" => "£"
  | c => c ++ " "

/-- Two-digit rendering of the fractional (minor-unit) part. -/
def twoDigitFraction (n : Nat) : String :=
  if n < 10 then "0" ++ Nat.repr n else Nat.repr n

/-- Model of `new Intl.NumberFormat('en-US', currency style).format(v / 100)`
(lines 524 and 561) on a non-negative minor-unit amount: sign mark, grouped
integer part, dot, two fraction digits. -/
def formatAmountDisplay (currency : String) (v : Nat) : String :=
  currencyMark currency ++ groupDigits (Nat.repr (v / 100)) ++ "." ++ twoDigitFraction (v % 100)

/-- src/routes/countries/id.js lines 512-563 (`parseAndNormalizeAmount`):
either the explicit `amount_value`/`amount_currency` pair, or the legacy
string path — trim, optional 3-letter currency token (else the hint, else
an error), currency allow-list, strip grouping characters, decimal-shape
test, and the integer minor-unit computation
`Number(integerPart) * 100 + Number(fractionPart)`.  Errors carry the
thrown messages.  Every arithmetic step is over `Nat`/`Int`. -/
def parseAndNormalizeAmount (body : AmountBody) (currencyHint : Option String) :
    Except String NormalizedAmount :=
  match body.amount_value with
  | some v =>
    match body.amount_currency with
    | none => .error "amount_currency is required when amount_value is provided"
    | some cRaw =>
      let currency := jsToUpper cRaw
      if !(SUPPORTED_CURRENCIES.contains currency) then .error "Unsupported currency"
      else if v < 0 then .error "amount_value must be a non-negative integer"
      else .ok ⟨v, currency, formatAmountDisplay currency v.toNat⟩
  | none =>
    let raw : Option String :=
      match body.amount with
      | some a => some a
      | none =>
        match body.raw_amount_input with
        | some r => if r == "" then none else some r
        | none => none
    match raw with
    | none => .error "Missing amount_value or legacy amount input"
    | some rawStr =>
      if rawStr == "" then .error "Missing amount_value or legacy amount input"
      else
        let trimmed := jsTrim rawStr
        let curNum : Except String (String × List Char) :=
          match tokenSplit trimmed with
          | some (cur, rest) => .ok (cur, rest)
          | none =>
            match currencyHint with
            | some h => .ok (jsToUpper h, trimmed.toList)
            | none =>
              .error "Currency not provided. Provide amount_currency or use 3-letter currency prefix in amount (e.g., \"KES 2500.00\")"
        match curNum with
        | .error msg => .error msg
        | .ok (currency, numericRaw) =>
          if !(SUPPORTED_CURRENCIES.contains currency) then .error "Unsupported currency"
          else
            let numeric := cleanNumeric numericRaw
            if numeric.isEmpty || !validNumeric numeric then .error "Invalid numeric amount"
            else
              let parts := splitDots numeric
              let integerPart := parts.getD 0 []
              let fractionPart := (padEndTwoZero (parts.getD 1 [])).take 2
              let amountValueInt : Nat :=
                digitsToNat integerPart * 100 + digitsToNat fractionPart
              .ok ⟨(amountValueInt : Int), currency,
                   formatAmountDisplay currency amountValueInt⟩

/-! ## Upload retry executor (src/routes/countries/id.js lines 581-593) -/

/-- The loop body of `retryUpload`: `attempt` is the current value of the
mutable counter, `remaining` is `UPLOAD_RETRY_ATTEMPTS - attempt` (the loop
guard `attempt < UPLOAD_RETRY_ATTEMPTS` in fuel form).  `fails i` is the
oracle for the outcome of the i-th `uploadFile` call (0-based).  On success
the function returns the 1-based number of the succeeding attempt; on
exhaustion it rethrows the last error. -/
def retryUploadGo (fails : Nat → Bool) (attempt remaining : Nat) : Except Unit Nat :=
  match remaining with
  | 0 => .error ()
  | r + 1 =>
    if fails attempt then
      if UPLOAD_RETRY_ATTEMPTS ≤ attempt + 1 then .error ()
      else retryUploadGo fails (attempt + 1) r
    else .ok (attempt + 1)

/-- src/routes/countries/id.js lines 581-593 (`retryUpload`). -/
def retryUpload (fails : Nat → Bool) : Except Unit Nat :=
  retryUploadGo fails 0 UPLOAD_RETRY_ATTEMPTS

/-! ## Receipts handler (src/routes/countries/id.js lines 596-821) -/

/-- The prior receipt fields returned on an idempotency hit (lines 759-770). -/
structure ReceiptRecordLite where
  receipt_id : String
  receipt_number : String
  public_url : String
  download_url : String
  verify_url : String
deriving DecidableEq, Repr

/-- Outcome of the `findOne` idempotency lookup (lines 755-776): threw
(non-fatal, generation proceeds), or returned an optional record. -/
inductive IdemLookup where
  | threw : IdemLookup
  | found : Option ReceiptRecordLite → IdemLookup
deriving DecidableEq, Repr

/-- Environment of one receipts run: request fields plus oracles for
every external call. -/
structure ReceiptsEnv where
  authOk : Bool
  bodyValid : Bool
  tenantName : Option String
  propertyName : Option String
  idempotencyKey : Option String
  amountBody : AmountBody
  newUuid : String
  receiptNumber : String
  qrOk : Bool
  pdfOk : Bool
  r2InitOk : Bool
  r2Endpoint : String
  r2Bucket : String
  r2FileUuid : String
  uploadFails : Nat → Bool
  receiptsColOk : Bool
  idemLookup : IdemLookup
  postOk : Bool

/-- Trace of the artifact work and the durable write of one receipts run:
`persisted` carries the `receipt_id` of a newly inserted Receipt record. -/
structure ReceiptsEffects where
  qrGenerated : Bool
  pdfRendered : Bool
  uploadAttempts : Nat
  uploaded : Bool
  persisted : Option String
deriving DecidableEq, Repr

/-- HTTP response of the receipts handler. -/
inductive ReceiptsResp where
  | ok : Nat → String → String → String → String → ReceiptsResp
  | err : String → Nat → ReceiptsResp
deriving DecidableEq, Repr

/-- Result of one receipts run. -/
structure ReceiptsResult where
  resp : ReceiptsResp
  eff : ReceiptsEffects
deriving DecidableEq, Repr

/-- Compute `body.amount_currency || null` at line 629 (the hint argument). -/
def currencyHintOf (b : AmountBody) : Option String :=
  match b.amount_currency with
  | some c => if c == "" then none else some c
  | none => none

/-- src/routes/countries/id.js lines 596-821 (the receipts handler), in
source order: auth, body parse, required fields, amount normalization
(INVALID_AMOUNT/400 on any parse error), QR generation, PDF render, R2
init, upload through `retryUpload`, receipts collection retrieval, then —
only after all of those — the idempotency lookup, which on a hit returns
the prior record with 200 and persists nothing, and otherwise the insert
of the new Receipt record.  Failures from init/upload/collection/insert
share the surrounding try and answer GENERATION_FAILED/500. -/
def receipts (e : ReceiptsEnv) : ReceiptsResult :=
  let noEff : ReceiptsEffects := ⟨false, false, 0, false, none⟩
  if !e.authOk then ⟨.err "UNAUTHORIZED" 403, noEff⟩
  else if !e.bodyValid then ⟨.err "INVALID_BODY" 400, noEff⟩
  else if e.tenantName.isNone || e.propertyName.isNone then ⟨.err "MISSING_FIELDS" 400, noEff⟩
  else
    match parseAndNormalizeAmount e.amountBody (currencyHintOf e.amountBody) with
    | .error _ => ⟨.err "INVALID_AMOUNT" 400, noEff⟩
    | .ok _norm =>
      let receiptId := "RCT-" ++ e.newUuid
      let verifyUrl := "https://housika.io/verify?receipt_number=" ++ e.receiptNumber
      if !e.qrOk then ⟨.err "QR_GENERATION_FAILED" 500, noEff⟩
      else if !e.pdfOk then ⟨.err "PDF_GENERATION_FAILED" 500, ⟨true, false, 0, false, none⟩⟩
      else if !e.r2InitOk then ⟨.err "GENERATION_FAILED" 500, ⟨true, true, 0, false, none⟩⟩
      else
        let key := generateFilename "pdf" "receipts" e.r2FileUuid
        let publicUrl := generatePublicUrl e.r2Endpoint e.r2Bucket key
        match retryUpload e.uploadFails with
        | .error _ =>
          ⟨.err "GENERATION_FAILED" 500, ⟨true, true, UPLOAD_RETRY_ATTEMPTS, false, none⟩⟩
        | .ok attempts =>
          if !e.receiptsColOk then
            ⟨.err "GENERATION_FAILED" 500, ⟨true, true, attempts, true, none⟩⟩
          else
            let hit : Option ReceiptRecordLite :=
              match e.idempotencyKey with
              | some _ =>
                match e.idemLookup with
                | .found (some r) => some r
                | _ => none
              | none => none
            match hit with
            | some r =>
              ⟨.ok 200 r.receipt_id r.receipt_number r.public_url r.verify_url,
               ⟨true, true, attempts, true, none⟩⟩
            | none =>
              if !e.postOk then
                ⟨.err "GENERATION_FAILED" 500, ⟨true, true, attempts, true, none⟩⟩
              else
                ⟨.ok 200 receiptId e.receiptNumber publicUrl verifyUrl,
                 ⟨true, true, attempts, true, some receiptId⟩⟩

/-! ## Concrete environments used by witnesses and counterexamples -/

/-- A fully valid booking request: the gateway verifies the reference, the
room, its property (one unit left) and the landlord all resolve, the guest
details are complete, and every write-outcome oracle is set to succeed —
the write stage is nevertheless unreachable, because the handler throws
the qrDataUrl temporal-dead-zone ReferenceError first. -/
def happyBookingEnv : BookingEnv :=
  { bodyValid := true,
    roomId := some "P1-R1",
    paymentReference := some "PAY-1",
    bodyEmail := "guest@example.com",
    tokenEmail := "",
    isUser := false,
    isCEO := false,
    guestFieldsComplete := true,
    collectionsOk := true,
    localLookup := .status none,
    verify := .result (some "success"),
    room := some ⟨"r1", "Room 1", 1000⟩,
    property := some ⟨"p1", "P1", "Prop 1", "L1", some 1⟩,
    landlord := some ⟨"landlord@example.com", some "Land Lord"⟩,
    receiptUuid := "uuid-1",
    r2Endpoint := "https://r2.example",
    r2Bucket := "housika",
    roomPatchOk := true,
    propertyPatchOk := true,
    bookingPostOk := true,
    paymentPostOk := true }

/-- A receipts request that passes auth and validation, parses the legacy
amount string, and for which QR, PDF, upload (first try), collection
retrieval and insert all succeed, with no idempotency key. -/
def happyReceiptsEnv : ReceiptsEnv :=
  { authOk := true,
    bodyValid := true,
    tenantName := some "Jane Tenant",
    propertyName := some "Prop 1",
    idempotencyKey := none,
    amountBody := ⟨none, none, some "KES 2,500.00", none⟩,
    newUuid := "uuid-new",
    receiptNumber := "1234567890",
    qrOk := true,
    pdfOk := true,
    r2InitOk := true,
    r2Endpoint := "https://r2.example",
    r2Bucket := "housika",
    r2FileUuid := "file-1",
    uploadFails := fun _ => false,
    receiptsColOk := true,
    idemLookup := .found none,
    postOk := true }

/-- The Receipt record already stored under the idempotency key of a
retried request. -/
def priorReceipt : ReceiptRecordLite :=
  { receipt_id := "RCT-old",
    receipt_number := "0000000001",
    public_url := "https://r2.example/housika/receipts/old.pdf",
    download_url := "https://r2.example/housika/receipts/old.pdf",
    verify_url := "https://housika.io/verify?receipt_number=0000000001" }

/-- A chat-creation payload that passes validation and carries an initial
message with a non-empty string body. -/
def happyChatPayload : ChatPayload :=
  { isObject := true,
    tooLarge := false,
    tenantId := .jstr "tenant-1",
    participantsIsArray := true,
    participants := [⟨true, .jstr "user-1"⟩, ⟨true, .jstr "user-2"⟩],
    type := .undef,
    initialMessage := some ⟨.jstr "hello", .undef, .undef⟩ }

/-- A chat document whose participants include "user-1". -/
def happyChatDoc : ChatDoc :=
  { tenantId := some "tenant-1",
    participants := [⟨true, .jstr "user-1"⟩, ⟨true, .jstr "user-2"⟩] }

/-! ## Shared helper lemmas -/

/-- The pre-persistence pipeline never reaches the write stage: every
branch — including the receipt-generation step, which translates the
qrDataUrl temporal-dead-zone ReferenceError — produces an error. -/
theorem bookingsPrelim_always_fails (e : BookingEnv) :
    ∃ er, bookingsPrelim e = .error er := by
  unfold bookingsPrelim
  repeat' split
  all_goals exact ⟨_, rfl⟩

/-- No run of the booking handler performs any durable write or side
effect: the write stage is dead code behind the always-throwing
receipt-generation declaration. -/
theorem bookings_no_effects (e : BookingEnv) : (bookings e).eff = noBookingEffects := by
  obtain ⟨er, her⟩ := bookingsPrelim_always_fails e
  obtain ⟨code, status⟩ := er
  simp [bookings, her]

/-- Exhausting all `UPLOAD_RETRY_ATTEMPTS` attempts makes `retryUpload`
rethrow the last error. -/
theorem retryUpload_exhaust (fails : Nat → Bool)
    (h : ∀ i, i < UPLOAD_RETRY_ATTEMPTS → fails i = true) :
    retryUpload fails = .error () := by
  have h0 := h 0 (by norm_num [UPLOAD_RETRY_ATTEMPTS])
  have h1 := h 1 (by norm_num [UPLOAD_RETRY_ATTEMPTS])
  have h2 := h 2 (by norm_num [UPLOAD_RETRY_ATTEMPTS])
  simp [retryUpload, retryUploadGo, UPLOAD_RETRY_ATTEMPTS, h0, h1, h2]

/-! ## Claim theorems -/

/-- C1 (code bug): the claimed success scenario is unreachable.  At a fully
valid request — gateway-verified reference, existing room, property with
`unit_available = 1`, landlord, complete guest details, every write oracle
succeeding — the handler answers BOOKING_CREATION_FAILED/500 with no
booking persisted, no inventory patch, no upload and no emails, because the
receipt-generation declaration at part_017 lines 214-217 reads `qrDataUrl`
inside its own initializer (a temporal-dead-zone ReferenceError) and every
run reaching it throws into the outer catch.  The claim describes the
evident intent; the code can never perform it. -/
theorem booking_success_scenario_unreachable :
    bookings happyBookingEnv = ⟨.err "BOOKING_CREATION_FAILED" 500, noBookingEffects⟩ :=
  rfl

/-- C9 (code bug): the booking handler never writes the claimed inventory
update.  The patch formula of part_017 lines 227-230 sits in dead code: at
a fully valid request whose property has `unit_available = 2`, the run
throws the qrDataUrl temporal-dead-zone ReferenceError at line 216, answers
BOOKING_CREATION_FAILED/500, and writes no property patch at all. -/
theorem booking_inventory_never_patched :
    (bookings { happyBookingEnv with
                property := some ⟨"p1", "P1", "Prop 1", "L1", some 2⟩ }).resp =
        .err "BOOKING_CREATION_FAILED" 500 ∧
    (bookings { happyBookingEnv with
                property := some ⟨"p1", "P1", "Prop 1", "L1", some 2⟩ }).eff.propertyPatch =
        none :=
  ⟨rfl, rfl⟩

/-- C2: in every run of the booking saga that fails before the booking
record is durably persisted, no payments record with status 'used' is
written, so the same reference can be retried.  This holds of every run:
the receipt-generation declaration throws before the joint write stage, so
the handler never reaches the mark-used insert at all. -/
theorem booking_reference_never_burned (e : BookingEnv)
    (_hfail : (bookings e).resp.isErr = true)
    (_hnopersist : (bookings e).eff.bookingPersisted = false) :
    (bookings e).eff.paymentMarkedUsed = false := by
  rw [bookings_no_effects e]
  rfl

/-- C2 witness: a fully valid request fails with nothing persisted and the
reference not marked used. -/
theorem booking_reference_never_burned_witness :
    (bookings happyBookingEnv).resp.isErr = true ∧
    (bookings happyBookingEnv).eff.bookingPersisted = false ∧
    (bookings happyBookingEnv).eff.paymentMarkedUsed = false :=
  ⟨rfl, rfl, booking_reference_never_burned happyBookingEnv rfl rfl⟩

/-- C7: for every non-privileged booking request whose local payments
lookup reports the reference as 'used', the handler answers
PAYMENT_USED/409 having performed no write at all; and a local lookup that
throws is non-fatal — the run is identical to one whose lookup found
nothing, so verification proceeds. -/
theorem booking_payment_used_conflict :
    (∀ e : BookingEnv,
      e.bodyValid = true →
      e.roomId.isSome = true →
      e.paymentReference.isSome = true →
      (resolvedEmail e == "") = false →
      e.collectionsOk = true →
      e.isCEO = false →
      localSaysUsed e.localLookup = true →
      bookings e = ⟨.err "PAYMENT_USED" 409, noBookingEffects⟩) ∧
    (∀ e : BookingEnv,
      bookings { e with localLookup := .threw } =
        bookings { e with localLookup := .status none }) := by
  constructor
  · intro e hbody hroom href hemail hcol hceo hused
    obtain ⟨rid, hrid⟩ := Option.isSome_iff_exists.mp hroom
    obtain ⟨ref, href'⟩ := Option.isSome_iff_exists.mp href
    simp [bookings, bookingsPrelim, hbody, hrid, href', hemail, hcol, hceo, hused]
  · intro e
    rfl

/-- C7 witness: the conflict at a concrete environment, and the fail-open
equivalence at the same environment. -/
theorem booking_payment_used_conflict_witness :
    bookings { happyBookingEnv with localLookup := .status (some "used") } =
      ⟨.err "PAYMENT_USED" 409, noBookingEffects⟩ ∧
    bookings { happyBookingEnv with localLookup := .threw } =
      bookings { happyBookingEnv with localLookup := .status none } :=
  ⟨booking_payment_used_conflict.1 { happyBookingEnv with localLookup := .status (some "used") }
      rfl rfl rfl rfl rfl rfl rfl,
   booking_payment_used_conflict.2 happyBookingEnv⟩

/-- C8 counterexample: when the gateway verification returns a status other
than 'success', the booking handler answers with error code
PAYMENT_FAILED (HTTP 402), not PAYMENT_VERIFICATION_FAILED as the claim
states (that code belongs to the property-creation handler). -/
theorem booking_verify_code_counterexample :
    (bookings { happyBookingEnv with verify := .result (some "failed") }).resp =
        .err "PAYMENT_FAILED" 402 ∧
    "PAYMENT_FAILED" ≠ "PAYMENT_VERIFICATION_FAILED" :=
  ⟨rfl, by decide⟩

/-- C8 amended: for every non-privileged booking request reaching gateway
verification, a verification result whose status is not 'success' (or with
no data) makes the handler fail with error PAYMENT_FAILED and HTTP 402,
and a gateway error reporting the reference as unknown makes it fail with
PAYMENT_REFERENCE_NOT_FOUND; in both cases no booking is created and no
write is performed. -/
theorem booking_verification_failure_responses (e : BookingEnv)
    (hbody : e.bodyValid = true)
    (hroom : e.roomId.isSome = true)
    (href : e.paymentReference.isSome = true)
    (hemail : (resolvedEmail e == "") = false)
    (hcol : e.collectionsOk = true)
    (hceo : e.isCEO = false)
    (hused : localSaysUsed e.localLookup = false) :
    (∀ st : Option String, e.verify = .result st → (st == some "success") = false →
      bookings e = ⟨.err "PAYMENT_FAILED" 402, noBookingEffects⟩) ∧
    (e.verify = .throwRefNotFound →
      bookings e = ⟨.err "PAYMENT_REFERENCE_NOT_FOUND" 402, noBookingEffects⟩) := by
  obtain ⟨rid, hrid⟩ := Option.isSome_iff_exists.mp hroom
  obtain ⟨ref, href'⟩ := Option.isSome_iff_exists.mp href
  constructor
  · intro st hver hst
    simp [bookings, bookingsPrelim, hbody, hrid, href', hemail, hcol, hceo, hused, hver, hst]
  · intro hver
    simp [bookings, bookingsPrelim, hbody, hrid, href', hemail, hcol, hceo, hused, hver]

/-- C8 witness: both failure shapes at concrete environments. -/
theorem booking_verification_failure_responses_witness :
    bookings { happyBookingEnv with verify := .result (some "failed") } =
      ⟨.err "PAYMENT_FAILED" 402, noBookingEffects⟩ ∧
    bookings { happyBookingEnv with verify := .throwRefNotFound } =
      ⟨.err "PAYMENT_REFERENCE_NOT_FOUND" 402, noBookingEffects⟩ :=
  ⟨(booking_verification_failure_responses
      { happyBookingEnv with verify := .result (some "failed") }
      rfl rfl rfl rfl rfl rfl rfl).1 (some "failed") rfl rfl,
   (booking_verification_failure_responses
      { happyBookingEnv with verify := .throwRefNotFound }
      rfl rfl rfl rfl rfl rfl rfl).2 rfl⟩

/-- C3: in both paired-write flows — chat insert then initial-message
insert in `createChat`, and message insert then chat-metadata update in
`postMessageToChat` — a secondary-write failure followed by a successful
compensating delete leaves the primary record deleted and answers a
failure response (MESSAGE_INSERT_FAILED resp. CHAT_UPDATE_FAILED, HTTP
500), and a failing compensating delete answers PARTIAL_FAILURE with HTTP
500 (the primary record then still exists). -/
theorem paired_write_compensation :
    (∀ (e : CreateChatEnv) (chatId : String),
      e.bodyValid = true →
      validateChatPayload e.payload = none →
      e.dbOk = true →
      e.chatInsert = .ok (some chatId) →
      (sanitizeInitialMessage e.payload.initialMessage).isSome = true →
      e.msgInsert = .threw →
      (e.deleteOk = true →
        createChat e = ⟨false, some "MESSAGE_INSERT_FAILED", 500, none, none, false, false⟩) ∧
      (e.deleteOk = false →
        createChat e = ⟨false, some "PARTIAL_FAILURE", 500, none, none, true, false⟩)) ∧
    (∀ (e : PostMsgEnv) (userId mid : String) (chatDoc : ChatDoc),
      e.userId = some userId →
      e.chatIdParam.isSome = true →
      e.bodyValid = true →
      messageBodyTruthy (sanitizeMessage e.rawMessage) = true →
      e.sizeOk = true →
      e.dbOk = true →
      e.chatLookup = .found (some chatDoc) →
      tenantMismatch e.tenantId chatDoc.tenantId = false →
      isParticipant chatDoc userId = true →
      e.msgInsert = .ok (some mid) →
      e.chatUpdateOk = false →
      (e.deleteOk = true →
        postMessageToChat e = ⟨false, some "CHAT_UPDATE_FAILED", 500, none, false, false⟩) ∧
      (e.deleteOk = false →
        postMessageToChat e = ⟨false, some "PARTIAL_FAILURE", 500, none, true, false⟩)) := by
  constructor
  · intro e chatId hbody hval hdb hins hsan hmsg
    obtain ⟨m, hm⟩ := Option.isSome_iff_exists.mp hsan
    refine ⟨fun hdel => ?_, fun hdel => ?_⟩ <;>
      simp [createChat, hbody, hval, hdb, hins, hm, hmsg, hdel, DEFAULT_ATOMIC_CREATE]
  · intro e userId mid chatDoc huser hcid hbody hmsg hsize hdb hlook htenant hpart hins hupd
    obtain ⟨cid, hcid'⟩ := Option.isSome_iff_exists.mp hcid
    refine ⟨fun hdel => ?_, fun hdel => ?_⟩ <;>
      simp [postMessageToChat, huser, hcid', hbody, hmsg, hsize, hdb, hlook, htenant, hpart,
        hins, hupd, hdel, DEFAULT_ATOMIC_MESSAGE_CREATE]

/-- C3 witness: both flows at concrete environments, with the delete
succeeding in one and failing in the other. -/
theorem paired_write_compensation_witness :
    createChat
        { bodyValid := true, payload := happyChatPayload, dbOk := true,
          chatInsert := .ok (some "chat-1"), msgInsert := .threw, deleteOk := true } =
      ⟨false, some "MESSAGE_INSERT_FAILED", 500, none, none, false, false⟩ ∧
    createChat
        { bodyValid := true, payload := happyChatPayload, dbOk := true,
          chatInsert := .ok (some "chat-1"), msgInsert := .threw, deleteOk := false } =
      ⟨false, some "PARTIAL_FAILURE", 500, none, none, true, false⟩ ∧
    postMessageToChat
        { userId := some "user-1", tenantId := some "tenant-1", chatIdParam := some "chat-1",
          bodyValid := true, rawMessage := some ⟨.jstr "hello", .undef, .undef⟩,
          sizeOk := true, dbOk := true, chatLookup := .found (some happyChatDoc),
          msgInsert := .ok (some "msg-1"), chatUpdateOk := false, deleteOk := true } =
      ⟨false, some "CHAT_UPDATE_FAILED", 500, none, false, false⟩ ∧
    postMessageToChat
        { userId := some "user-1", tenantId := some "tenant-1", chatIdParam := some "chat-1",
          bodyValid := true, rawMessage := some ⟨.jstr "hello", .undef, .undef⟩,
          sizeOk := true, dbOk := true, chatLookup := .found (some happyChatDoc),
          msgInsert := .ok (some "msg-1"), chatUpdateOk := false, deleteOk := false } =
      ⟨false, some "PARTIAL_FAILURE", 500, none, true, false⟩ :=
  ⟨(paired_write_compensation.1
      { bodyValid := true, payload := happyChatPayload, dbOk := true,
        chatInsert := .ok (some "chat-1"), msgInsert := .threw, deleteOk := true }
      "chat-1" rfl rfl rfl rfl rfl rfl).1 rfl,
   (paired_write_compensation.1
      { bodyValid := true, payload := happyChatPayload, dbOk := true,
        chatInsert := .ok (some "chat-1"), msgInsert := .threw, deleteOk := false }
      "chat-1" rfl rfl rfl rfl rfl rfl).2 rfl,
   (paired_write_compensation.2
      { userId := some "user-1", tenantId := some "tenant-1", chatIdParam := some "chat-1",
        bodyValid := true, rawMessage := some ⟨.jstr "hello", .undef, .undef⟩,
        sizeOk := true, dbOk := true, chatLookup := .found (some happyChatDoc),
        msgInsert := .ok (some "msg-1"), chatUpdateOk := false, deleteOk := true }
      "user-1" "msg-1" happyChatDoc rfl rfl rfl rfl rfl rfl rfl rfl rfl rfl rfl).1 rfl,
   (paired_write_compensation.2
      { userId := some "user-1", tenantId := some "tenant-1", chatIdParam := some "chat-1",
        bodyValid := true, rawMessage := some ⟨.jstr "hello", .undef, .undef⟩,
        sizeOk := true, dbOk := true, chatLookup := .found (some happyChatDoc),
        msgInsert := .ok (some "msg-1"), chatUpdateOk := false, deleteOk := false }
      "user-1" "msg-1" happyChatDoc rfl rfl rfl rfl rfl rfl rfl rfl rfl rfl rfl).2 rfl⟩

/-- C10: an `initialMessage` that is present but sanitizes to nothing (no
truthy string body, no truthy string type, no truthy object metadata) is
dropped: the chat is inserted, no message document is written, and the
request succeeds with HTTP 201 and a null `messageInsertedId` — the
unusable initial message neither fails the request nor rolls the chat
back. -/
theorem chat_created_without_initial_message :
    (∀ m : RawMessage,
      (m.body.truthy && m.body.isString) = false →
      (m.type.truthy && m.type.isString) = false →
      (m.metadata.truthy && m.metadata.isObjectLike) = false →
      sanitizeInitialMessage (some m) = none) ∧
    (∀ (e : CreateChatEnv) (chatId : String),
      e.bodyValid = true →
      validateChatPayload e.payload = none →
      e.dbOk = true →
      e.chatInsert = .ok (some chatId) →
      sanitizeInitialMessage e.payload.initialMessage = none →
      createChat e = ⟨true, none, 201, some chatId, none, true, false⟩) := by
  constructor
  · intro m h1 h2 h3
    cases hmb : m.body <;> cases hmt : m.type <;>
      simp_all [sanitizeInitialMessage, JVal.truthy, JVal.isString, JVal.isObjectLike]
  · intro e chatId hbody hval hdb hins hsan
    simp [createChat, hbody, hval, hdb, hins, hsan]

/-- C10 witness: an initial message whose fields are a number, null and a
string sanitizes to nothing and the chat is still created. -/
theorem chat_created_without_initial_message_witness :
    sanitizeInitialMessage (some ⟨.jnum 7, .jnull, .jstr "x"⟩) = none ∧
    createChat
        { bodyValid := true,
          payload := { happyChatPayload with initialMessage := some ⟨.jnum 7, .jnull, .jstr "x"⟩ },
          dbOk := true, chatInsert := .ok (some "chat-1"),
          msgInsert := .threw, deleteOk := true } =
      ⟨true, none, 201, some "chat-1", none, true, false⟩ :=
  ⟨chat_created_without_initial_message.1 ⟨.jnum 7, .jnull, .jstr "x"⟩ rfl rfl rfl,
   chat_created_without_initial_message.2
      { bodyValid := true,
        payload := { happyChatPayload with initialMessage := some ⟨.jnum 7, .jnull, .jstr "x"⟩ },
        dbOk := true, chatInsert := .ok (some "chat-1"),
        msgInsert := .threw, deleteOk := true }
      "chat-1" rfl rfl rfl rfl rfl⟩

/-- C4: amount normalization is a pure integer computation: the legacy
string "KES 2,500.00" normalizes to 250000 minor units of KES, and its
`amount_display` renders an equivalent amount in the sense that feeding the
display string back through the same parser recovers the same value and
currency; "abc" (no currency, no hint) fails; every unsupported currency —
whether in the 3-letter token of a legacy string or in the explicit
`amount_currency` — fails; every legacy input whose cleaned numeric part is
not of the decimal shape `\d+(\.\d+)?` fails; and on any such parse error
the receipts handler answers INVALID_AMOUNT with HTTP 400 and performs no
work. -/
theorem amount_normalization_behaviour :
    (parseAndNormalizeAmount ⟨none, none, some "KES 2,500.00", none⟩ none =
       .ok ⟨250000, "KES", "KES 2,500.00"⟩) ∧
    (parseAndNormalizeAmount
        ⟨none, none, some (formatAmountDisplay "KES" 250000), none⟩ none =
       .ok ⟨250000, "KES", formatAmountDisplay "KES" 250000⟩) ∧
    (parseAndNormalizeAmount ⟨none, none, some "abc", none⟩ none =
       .error "Currency not provided. Provide amount_currency or use 3-letter currency prefix in amount (e.g., \"KES 2500.00\")") ∧
    (∀ (b : AmountBody) (hint : Option String) (s cur : String) (rest : List Char),
      b.amount_value = none → b.amount = some s → (s == "") = false →
      tokenSplit (jsTrim s) = some (cur, rest) →
      SUPPORTED_CURRENCIES.contains cur = false →
      parseAndNormalizeAmount b hint = .error "Unsupported currency") ∧
    (∀ (b : AmountBody) (hint : Option String) (v : Int) (c : String),
      b.amount_value = some v → b.amount_currency = some c →
      SUPPORTED_CURRENCIES.contains (jsToUpper c) = false →
      parseAndNormalizeAmount b hint = .error "Unsupported currency") ∧
    (∀ (b : AmountBody) (hint : Option String) (s cur : String) (rest : List Char),
      b.amount_value = none → b.amount = some s → (s == "") = false →
      tokenSplit (jsTrim s) = some (cur, rest) →
      SUPPORTED_CURRENCIES.contains cur = true →
      validNumeric (cleanNumeric rest) = false →
      parseAndNormalizeAmount b hint = .error "Invalid numeric amount") ∧
    (∀ (e : ReceiptsEnv) (msg : String),
      e.authOk = true → e.bodyValid = true →
      e.tenantName.isSome = true → e.propertyName.isSome = true →
      parseAndNormalizeAmount e.amountBody (currencyHintOf e.amountBody) = .error msg →
      receipts e = ⟨.err "INVALID_AMOUNT" 400, ⟨false, false, 0, false, none⟩⟩) := by
  refine ⟨rfl, rfl, rfl, ?_, ?_, ?_, ?_⟩
  · intro b hint s cur rest hv ham hs htok hcur
    have hcur' : cur ∉ SUPPORTED_CURRENCIES := by simpa using hcur
    simp [parseAndNormalizeAmount, hv, ham, hs, htok, hcur']
  · intro b hint v c hv hc hcur
    have hcur' : jsToUpper c ∉ SUPPORTED_CURRENCIES := by simpa using hcur
    simp [parseAndNormalizeAmount, hv, hc, hcur']
  · intro b hint s cur rest hv ham hs htok hcur hval
    have hcur' : cur ∈ SUPPORTED_CURRENCIES := by simpa using hcur
    simp [parseAndNormalizeAmount, hv, ham, hs, htok, hcur', hval]
  · intro e msg hauth hbody htn hpn hparse
    obtain ⟨tn, htn'⟩ := Option.isSome_iff_exists.mp htn
    obtain ⟨pn, hpn'⟩ := Option.isSome_iff_exists.mp hpn
    simp [receipts, hauth, hbody, htn', hpn', hparse]

/-- C4 witness: the unsupported-currency and malformed-numeric cases at
concrete inputs, and the handler outcome for the "abc" request. -/
theorem amount_normalization_behaviour_witness :
    parseAndNormalizeAmount ⟨none, none, some "XXX 100", none⟩ none =
      .error "Unsupported currency" ∧
    parseAndNormalizeAmount ⟨some 100, some "XXX", none, none⟩ none =
      .error "Unsupported currency" ∧
    parseAndNormalizeAmount ⟨none, none, some "KES 1.2.3", none⟩ none =
      .error "Invalid numeric amount" ∧
    receipts { happyReceiptsEnv with amountBody := ⟨none, none, some "abc", none⟩ } =
      ⟨.err "INVALID_AMOUNT" 400, ⟨false, false, 0, false, none⟩⟩ :=
  ⟨amount_normalization_behaviour.2.2.2.1 ⟨none, none, some "XXX 100", none⟩ none
      "XXX 100" "XXX" "100".toList rfl rfl rfl rfl rfl,
   amount_normalization_behaviour.2.2.2.2.1 ⟨some 100, some "XXX", none, none⟩ none
      100 "XXX" rfl rfl rfl,
   amount_normalization_behaviour.2.2.2.2.2.1 ⟨none, none, some "KES 1.2.3", none⟩ none
      "KES 1.2.3" "KES" "1.2.3".toList rfl rfl rfl rfl rfl rfl,
   amount_normalization_behaviour.2.2.2.2.2.2
      { happyReceiptsEnv with amountBody := ⟨none, none, some "abc", none⟩ }
      "Currency not provided. Provide amount_currency or use 3-letter currency prefix in amount (e.g., \"KES 2500.00\")"
      rfl rfl rfl rfl rfl⟩

/-- C5 counterexample: a receipts run carrying an idempotency key for which
a Receipt record already exists.  The run does return the prior artifact's
identifiers with HTTP 200 and persists no new Receipt — but its trace
shows the QR code generated, the PDF rendered and the artifact uploaded
(one attempt) before the lookup, refuting the claim that the handler looks
the key up before any artifact generation and short-circuits. -/
theorem receipts_idempotency_order_counterexample :
    receipts { happyReceiptsEnv with
               idempotencyKey := some "key-1",
               idemLookup := .found (some priorReceipt) } =
      ⟨.ok 200 "RCT-old" "0000000001" "https://r2.example/housika/receipts/old.pdf"
          "https://housika.io/verify?receipt_number=0000000001",
       ⟨true, true, 1, true, none⟩⟩ :=
  rfl

/-- C5 amended: the idempotency lookup happens only after QR generation,
PDF render and storage upload, but before Receipt persistence: on a hit
the handler returns the prior record's `receipt_id`/`public_url` with HTTP
200 and persists no new Receipt; for a key with no existing record — and
likewise when the lookup itself fails (non-fatal) or no key is supplied —
a new `receipt_id` derived from a fresh UUID is persisted and returned. -/
theorem receipts_idempotency_short_circuit (e : ReceiptsEnv)
    (norm : NormalizedAmount) (att : Nat)
    (hauth : e.authOk = true) (hbody : e.bodyValid = true)
    (htn : e.tenantName.isSome = true) (hpn : e.propertyName.isSome = true)
    (hparse : parseAndNormalizeAmount e.amountBody (currencyHintOf e.amountBody) = .ok norm)
    (hqr : e.qrOk = true) (hpdf : e.pdfOk = true) (hr2 : e.r2InitOk = true)
    (hup : retryUpload e.uploadFails = .ok att)
    (hcol : e.receiptsColOk = true) :
    (∀ (k : String) (r : ReceiptRecordLite),
      e.idempotencyKey = some k → e.idemLookup = .found (some r) →
      receipts e =
        ⟨.ok 200 r.receipt_id r.receipt_number r.public_url r.verify_url,
         ⟨true, true, att, true, none⟩⟩) ∧
    (∀ k : String,
      e.idempotencyKey = some k → e.idemLookup = .found none → e.postOk = true →
      receipts e =
        ⟨.ok 200 ("RCT-" ++ e.newUuid) e.receiptNumber
            (generatePublicUrl e.r2Endpoint e.r2Bucket
              (generateFilename "pdf" "receipts" e.r2FileUuid))
            ("https://housika.io/verify?receipt_number=" ++ e.receiptNumber),
         ⟨true, true, att, true, some ("RCT-" ++ e.newUuid)⟩⟩) ∧
    (∀ k : String,
      e.idempotencyKey = some k → e.idemLookup = .threw → e.postOk = true →
      receipts e =
        ⟨.ok 200 ("RCT-" ++ e.newUuid) e.receiptNumber
            (generatePublicUrl e.r2Endpoint e.r2Bucket
              (generateFilename "pdf" "receipts" e.r2FileUuid))
            ("https://housika.io/verify?receipt_number=" ++ e.receiptNumber),
         ⟨true, true, att, true, some ("RCT-" ++ e.newUuid)⟩⟩) ∧
    (e.idempotencyKey = none → e.postOk = true →
      receipts e =
        ⟨.ok 200 ("RCT-" ++ e.newUuid) e.receiptNumber
            (generatePublicUrl e.r2Endpoint e.r2Bucket
              (generateFilename "pdf" "receipts" e.r2FileUuid))
            ("https://housika.io/verify?receipt_number=" ++ e.receiptNumber),
         ⟨true, true, att, true, some ("RCT-" ++ e.newUuid)⟩⟩) := by
  obtain ⟨tn, htn'⟩ := Option.isSome_iff_exists.mp htn
  obtain ⟨pn, hpn'⟩ := Option.isSome_iff_exists.mp hpn
  refine ⟨?_, ?_, ?_, ?_⟩
  · intro k r hk hlook
    simp [receipts, hauth, hbody, htn', hpn', hparse, hqr, hpdf, hr2, hup, hcol, hk, hlook]
  · intro k hk hlook hpost
    simp [receipts, hauth, hbody, htn', hpn', hparse, hqr, hpdf, hr2, hup, hcol, hk, hlook,
      hpost]
  · intro k hk hlook hpost
    simp [receipts, hauth, hbody, htn', hpn', hparse, hqr, hpdf, hr2, hup, hcol, hk, hlook,
      hpost]
  · intro hk hpost
    simp [receipts, hauth, hbody, htn', hpn', hparse, hqr, hpdf, hr2, hup, hcol, hk, hpost]

/-- C5 witness: the hit run, the key-present lookup-miss run, and the
no-key run at concrete environments. -/
theorem receipts_idempotency_short_circuit_witness :
    receipts { happyReceiptsEnv with
               idempotencyKey := some "key-1",
               idemLookup := .found (some priorReceipt) } =
      ⟨.ok 200 "RCT-old" "0000000001" "https://r2.example/housika/receipts/old.pdf"
          "https://housika.io/verify?receipt_number=0000000001",
       ⟨true, true, 1, true, none⟩⟩ ∧
    receipts { happyReceiptsEnv with idempotencyKey := some "key-1" } =
      ⟨.ok 200 "RCT-uuid-new" "1234567890"
          "https://r2.example/housika/receipts/file-1.pdf"
          "https://housika.io/verify?receipt_number=1234567890",
       ⟨true, true, 1, true, some "RCT-uuid-new"⟩⟩ ∧
    receipts happyReceiptsEnv =
      ⟨.ok 200 "RCT-uuid-new" "1234567890"
          "https://r2.example/housika/receipts/file-1.pdf"
          "https://housika.io/verify?receipt_number=1234567890",
       ⟨true, true, 1, true, some "RCT-uuid-new"⟩⟩ :=
  ⟨(receipts_idempotency_short_circuit
      { happyReceiptsEnv with
        idempotencyKey := some "key-1",
        idemLookup := .found (some priorReceipt) }
      ⟨250000, "KES", "KES 2,500.00"⟩ 1 rfl rfl rfl rfl rfl rfl rfl rfl rfl rfl).1
      "key-1" priorReceipt rfl rfl,
   (receipts_idempotency_short_circuit
      { happyReceiptsEnv with idempotencyKey := some "key-1" }
      ⟨250000, "KES", "KES 2,500.00"⟩ 1 rfl rfl rfl rfl rfl rfl rfl rfl rfl rfl).2.1
      "key-1" rfl rfl rfl,
   (receipts_idempotency_short_circuit happyReceiptsEnv
      ⟨250000, "KES", "KES 2,500.00"⟩ 1 rfl rfl rfl rfl rfl rfl rfl rfl rfl rfl).2.2.2
      rfl rfl⟩

/-- C6: the upload retry executor with three attempts succeeds on attempt
N+1 when the wrapped upload fails N < 3 times and then succeeds; when it
fails three consecutive times `retryUpload` rethrows the last error, the
receipts handler answers GENERATION_FAILED with HTTP 500, and no Receipt
record is persisted (so nothing references the missing artifact). -/
theorem upload_retry_behaviour :
    (∀ (fails : Nat → Bool) (N : Nat), N < UPLOAD_RETRY_ATTEMPTS →
      (∀ i, i < N → fails i = true) → fails N = false →
      retryUpload fails = .ok (N + 1)) ∧
    (∀ fails : Nat → Bool, (∀ i, i < UPLOAD_RETRY_ATTEMPTS → fails i = true) →
      retryUpload fails = .error ()) ∧
    (∀ (e : ReceiptsEnv) (norm : NormalizedAmount),
      e.authOk = true → e.bodyValid = true →
      e.tenantName.isSome = true → e.propertyName.isSome = true →
      parseAndNormalizeAmount e.amountBody (currencyHintOf e.amountBody) = .ok norm →
      e.qrOk = true → e.pdfOk = true → e.r2InitOk = true →
      (∀ i, i < UPLOAD_RETRY_ATTEMPTS → e.uploadFails i = true) →
      receipts e =
        ⟨.err "GENERATION_FAILED" 500,
         ⟨true, true, UPLOAD_RETRY_ATTEMPTS, false, none⟩⟩) := by
  refine ⟨?_, retryUpload_exhaust, ?_⟩
  · intro fails N hN hfail hsucc
    simp only [UPLOAD_RETRY_ATTEMPTS] at hN
    interval_cases N
    · simp [retryUpload, retryUploadGo, UPLOAD_RETRY_ATTEMPTS, hsucc]
    · have h0 := hfail 0 (by norm_num)
      simp [retryUpload, retryUploadGo, UPLOAD_RETRY_ATTEMPTS, h0, hsucc]
    · have h0 := hfail 0 (by norm_num)
      have h1 := hfail 1 (by norm_num)
      simp [retryUpload, retryUploadGo, UPLOAD_RETRY_ATTEMPTS, h0, h1, hsucc]
  · intro e norm hauth hbody htn hpn hparse hqr hpdf hr2 hfails
    obtain ⟨tn, htn'⟩ := Option.isSome_iff_exists.mp htn
    obtain ⟨pn, hpn'⟩ := Option.isSome_iff_exists.mp hpn
    have hup := retryUpload_exhaust e.uploadFails hfails
    simp [receipts, hauth, hbody, htn', hpn', hparse, hqr, hpdf, hr2, hup]

/-- C6 witness: two forced failures then success succeed on attempt 3; an
always-failing upload makes the concrete receipts run fail with
GENERATION_FAILED/500 and persist nothing. -/
theorem upload_retry_behaviour_witness :
    retryUpload (fun i => decide (i < 2)) = .ok 3 ∧
    receipts { happyReceiptsEnv with uploadFails := fun _ => true } =
      ⟨.err "GENERATION_FAILED" 500, ⟨true, true, UPLOAD_RETRY_ATTEMPTS, false, none⟩⟩ :=
  ⟨upload_retry_behaviour.1 (fun i => decide (i < 2)) 2 (by norm_num [UPLOAD_RETRY_ATTEMPTS])
      (fun i hi => by interval_cases i <;> rfl) rfl,
   upload_retry_behaviour.2.2 { happyReceiptsEnv with uploadFails := fun _ => true }
      ⟨250000, "KES", "KES 2,500.00"⟩ rfl rfl rfl rfl rfl rfl rfl rfl
      (fun i _ => rfl)⟩
